import Mathlib

/-!
Shallow embedding of the Pong game core implemented in `GameSrc/support.c`.

The shared simulation state (`game_data` in `support.h`) is modelled as a Lean
structure of integers, exactly the fields the four worker routines of
`support.c` read and write.  C `int` arithmetic is modelled with `Int`
(positions and counters stay far from 2^31 here, so no wrap-around modelling
is needed); C integer division (truncation toward zero) is `Int.tdiv`.

The constants `PADDLE_WIDTH`, `FIELD_TOP`, `MAX_HITCNT` and `MAX_LEVEL` are
defined in `support.h`, which is not part of the available sources; every
definition below is therefore parametric in them (`PW`, `FT`, `MH`, `ML`).

Each worker thread of `support.c` is an infinite loop mutating the shared
state; its loop body is embedded as a pure state-transformer.  A step returns
the new state, the list of tags written to the notification pipe during the
step, and whether the worker returned (terminated) during the step.
-/

/-- Notification tags written to the pipe (`KBD_TAG`, `AI_TAG`, `BALL_TAG`,
`QUIT_TAG` in `support.h`). -/
inductive Tag where
  | KBD
  | AI
  | BALL
  | QUIT
  deriving DecidableEq, Repr

/-- The shared simulation state: the fields of `game_data` that the handlers
in `support.c` touch.  All fields are C `int`s, modelled as `Int`; the flag
fields hold 0/1 as in the C source. -/
structure GameData where
  paddle_pos : Int
  paddle_pos_old : Int
  ai_paddle_pos : Int
  ai_paddle_pos_old : Int
  ball_x : Int
  ball_y : Int
  ball_x_old : Int
  ball_y_old : Int
  ball_dirx : Int
  ball_diry : Int
  paddle_col : Int
  ai_paddle_col : Int
  bottom_row : Int
  gameLevel : Int
  hitCnt : Int
  play_flag : Int
  exit_flag : Int
  termination_flag : Int
  haltFlag : Int
  winner : Int
  deriving DecidableEq, Repr

/-- Result of one scheduling step of a worker: the state after the step, the
tags the step wrote to the pipe, and whether the worker's routine returned. -/
structure WorkerStep where
  st : GameData
  tags : List Tag
  done : Bool
  deriving DecidableEq, Repr

/-- Winner encoding of `support.c`: `data->winner = 0` carries the comment
"ai loses, player wins", so 0 encodes the human player. -/
def winnerHuman : Int := 0

/-- Winner encoding of `support.c`: `data->winner = 1` carries the comment
"player loses, ai wins", so 1 encodes the AI. -/
def winnerAi : Int := 1

/-- Paddle-hit acceptance test of `ball_handler` (`support.c` lines 201-202
and 267-268): `abs(pos - ball_y - -ball_diry) <= PADDLE_WIDTH / 2`.  Both
the player-paddle and the AI-paddle check use this same expression, with
`pos` the respective paddle position. -/
def hitAccepted (PW pos y d : Int) : Bool :=
  |pos - y - (-d)| ≤ PW.tdiv 2

/-- Ball coordinate advance of `ball_handler` (`support.c` lines 186-189):
save old coordinates, then add the velocity components. -/
def ballMove (s : GameData) : GameData :=
  { s with
    ball_y_old := s.ball_y
    ball_x_old := s.ball_x
    ball_y := s.ball_y + s.ball_diry
    ball_x := s.ball_x + s.ball_dirx }

/-- Top/bottom wall reflection of `ball_handler` (`support.c` lines 192-196):
if `ball_y` left `[FIELD_TOP, bottom_row]`, negate `ball_diry` and add twice
the new `ball_diry` to `ball_y`. -/
def wallReflect (FT : Int) (s : GameData) : GameData :=
  if s.ball_y < FT ∨ s.ball_y > s.bottom_row then
    let d := s.ball_diry * (-1)
    { s with ball_diry := d, ball_y := s.ball_y + 2 * d }
  else s

/-- Player-paddle section of `ball_handler` (`support.c` lines 199-262).
When the ball column equals `paddle_col`: on an accepted hit negate
`ball_dirx`, add twice the new `ball_dirx` to `ball_x`, then run the
hit-count / level logic (lines 209-246); on a missed hit end the round with
`winner = 1` and one `QUIT_TAG` write, and return from the thread.
The level-up modal (lines 215-226) prints a banner, sets `haltFlag`, and
reads keys until space is pressed: its state effect on the resume path is
`gameLevel++`, `hitCnt = 0`, `haltFlag` transiently 1 and back to 0 (the
quit key inside the modal calls `termination_handler`, which exits the
process and hence yields no successor state). -/
def playerPadPhase (PW MH ML : Int) (s : GameData) : WorkerStep :=
  if s.ball_x = s.paddle_col then
    if hitAccepted PW s.paddle_pos s.ball_y s.ball_diry then
      let s1 := { s with ball_dirx := s.ball_dirx * (-1) }
      let s2 := { s1 with ball_x := s1.ball_x + 2 * s1.ball_dirx }
      let s3 :=
        if s2.hitCnt ≥ MH then
          { s2 with gameLevel := s2.gameLevel + 1, hitCnt := 0, haltFlag := 0 }
        else
          { s2 with hitCnt := s2.hitCnt + 1 }
      if s3.gameLevel > ML then
        ⟨{ s3 with play_flag := 0, winner := 0 }, [Tag.QUIT], true⟩
      else
        ⟨s3, [], false⟩
    else
      ⟨{ s with play_flag := 0, winner := 1 }, [Tag.QUIT], true⟩
  else ⟨s, [], false⟩

/-- AI-paddle section of `ball_handler` (`support.c` lines 265-289).  When
the ball column equals `ai_paddle_col`: on an accepted hit negate
`ball_dirx` and add twice the new `ball_dirx` to `ball_x`; on a missed hit
end the round with `winner = 0` and one `QUIT_TAG` write, and return. -/
def aiPadPhase (PW : Int) (s : GameData) : WorkerStep :=
  if s.ball_x = s.ai_paddle_col then
    if hitAccepted PW s.ai_paddle_pos s.ball_y s.ball_diry then
      let s1 := { s with ball_dirx := s.ball_dirx * (-1) }
      ⟨{ s1 with ball_x := s1.ball_x + 2 * s1.ball_dirx }, [], false⟩
    else
      ⟨{ s with play_flag := 0, winner := 0 }, [Tag.QUIT], true⟩
  else ⟨s, [], false⟩

/-- One scheduling step of the ball physics worker `ball_handler`
(`support.c` lines 181-294).  While `haltFlag` is nonzero the loop spins at
line 183 without touching the state (modelled as an identity step); otherwise
one tick runs: move the ball, reflect on the walls, run the player-paddle
section, and unless it returned, run the AI-paddle section and finally write
`BALL_TAG` (line 291). -/
def ball_handler_step (PW FT MH ML : Int) (s : GameData) : WorkerStep :=
  if s.haltFlag ≠ 0 then ⟨s, [], false⟩
  else
    let m := wallReflect FT (ballMove s)
    let p := playerPadPhase PW MH ML m
    if p.done then p
    else
      let q := aiPadPhase PW p.st
      if q.done then ⟨q.st, p.tags ++ q.tags, true⟩
      else ⟨q.st, p.tags ++ q.tags ++ [Tag.BALL], false⟩

/-- One tick of the AI worker `ai_handler` (`support.c` lines 306-322).
While `haltFlag` is nonzero the loop spins at line 308 without touching the
state.  Otherwise: `diff = ball_y - ai_paddle_pos`, the candidate position is
`ai_paddle_pos + diff / (diff == 0 ? 1 : abs(diff))`, the old position is
saved unconditionally, and the candidate is written only when it lies in
`[PADDLE_WIDTH/2, bottom_row - PADDLE_WIDTH/2]`; then `AI_TAG` is written. -/
def ai_handler_step (PW : Int) (s : GameData) : GameData × List Tag :=
  if s.haltFlag ≠ 0 then (s, [])
  else
    let diff := s.ball_y - s.ai_paddle_pos
    let cand := s.ai_paddle_pos + diff.tdiv (if diff = 0 then 1 else |diff|)
    let s1 := { s with ai_paddle_pos_old := s.ai_paddle_pos }
    let s2 :=
      if cand ≥ PW.tdiv 2 ∧ cand ≤ s1.bottom_row - PW.tdiv 2 then
        { s1 with ai_paddle_pos := cand }
      else s1
    (s2, [Tag.AI])

/-- Input events dispatched by `keyboard_handler` (`support.c` lines
115-161): the arrow keys, the play and quit keys, a pointer event carrying a
row, or any other input (including a failed `getmouse`). -/
inductive InputEvent where
  | keyUp
  | keyDown
  | playKey
  | quitKey
  | mouse (y : Int)
  | other
  deriving DecidableEq, Repr

/-- Dispatch of one input event by `keyboard_handler` (`support.c` lines
115-161).  Arrow keys save the old paddle position and move by one row only
when the guard of lines 120/128 allows it, then write `KBD_TAG`; the play
key sets `play_flag`; the quit key sets `exit_flag` and writes `QUIT_TAG`;
a pointer event saves the old position and sets `paddle_pos` to the
pointer's row with no bounds check (line 154), then writes `KBD_TAG`. -/
def keyboard_handler_step (PW : Int) (s : GameData) (e : InputEvent) :
    GameData × List Tag :=
  match e with
  | InputEvent.keyUp =>
      let s1 := { s with paddle_pos_old := s.paddle_pos }
      let s2 :=
        if s1.paddle_pos > PW.tdiv 2 then
          { s1 with paddle_pos := s1.paddle_pos - 1 }
        else s1
      (s2, [Tag.KBD])
  | InputEvent.keyDown =>
      let s1 := { s with paddle_pos_old := s.paddle_pos }
      let s2 :=
        if s1.paddle_pos < s1.bottom_row - PW.tdiv 2 then
          { s1 with paddle_pos := s1.paddle_pos + 1 }
        else s1
      (s2, [Tag.KBD])
  | InputEvent.playKey => ({ s with play_flag := 1 }, [])
  | InputEvent.quitKey => ({ s with exit_flag := 1 }, [Tag.QUIT])
  | InputEvent.mouse y =>
      ({ s with paddle_pos_old := s.paddle_pos, paddle_pos := y }, [Tag.KBD])
  | InputEvent.other => (s, [])

/-- Resize handler of the signal listener (`support.c` lines 55-88),
parametrised by the terminal size `(rows, cols)` that `getmaxy`/`getmaxx`
report after `wresize`.  It sets `bottom_row = rows - 1` and
`paddle_col = cols - 1`, pins each paddle that exceeds
`bottom_row - PADDLE_WIDTH/2` to `MAX(bottom_row - PADDLE_WIDTH/2,
PADDLE_WIDTH/2)`, clamps `ball_y` to `bottom_row`, and when `ball_x`
exceeds `cols` overwrites `ball_y` (not `ball_x`) with `cols / 2`. -/
def resize_handler (PW rows cols : Int) (s : GameData) : GameData :=
  let s1 := { s with bottom_row := rows - 1, paddle_col := cols - 1 }
  let s2 :=
    if s1.paddle_pos > s1.bottom_row - PW.tdiv 2 then
      { s1 with paddle_pos := max (s1.bottom_row - PW.tdiv 2) (PW.tdiv 2) }
    else s1
  let s3 :=
    if s2.ai_paddle_pos > s2.bottom_row - PW.tdiv 2 then
      { s2 with ai_paddle_pos := max (s2.bottom_row - PW.tdiv 2) (PW.tdiv 2) }
    else s2
  let s4 :=
    if s3.ball_y > s3.bottom_row then { s3 with ball_y := s3.bottom_row }
    else s3
  let s5 :=
    if s4.ball_x > cols then { s4 with ball_y := cols.tdiv 2 }
    else s4
  s5

/-- Paddle-position invariant of the specification: the position lies in
`[PADDLE_WIDTH/2, bottom_row - PADDLE_WIDTH/2]`. -/
def paddleInBounds (PW bottomRow pos : Int) : Prop :=
  PW.tdiv 2 ≤ pos ∧ pos ≤ bottomRow - PW.tdiv 2

instance (PW b p : Int) : Decidable (paddleInBounds PW b p) :=
  inferInstanceAs (Decidable (_ ∧ _))

/-- Exact sign computed by the division trick of `ai_handler` line 311:
`diff / (diff == 0 ? 1 : abs(diff))` equals the sign of `diff`. -/
theorem tdiv_abs_sign (d : Int) :
    d.tdiv (if d = 0 then 1 else |d|) = d.sign := by
  rcases lt_trichotomy d 0 with h | h | h
  · rw [if_neg h.ne, abs_of_neg h, Int.tdiv_neg, Int.tdiv_self h.ne,
      Int.sign_eq_neg_one_of_neg h]
  · simp [h]
  · rw [if_neg h.ne.symm, abs_of_pos h, Int.tdiv_self h.ne.symm,
      Int.sign_eq_one_of_pos h]

/-- Concrete in-bounds state used to instantiate the theorems below:
ball moving up-right in an 80x21 field, both paddles at row 10. -/
def baseState : GameData where
  paddle_pos := 10
  paddle_pos_old := 10
  ai_paddle_pos := 10
  ai_paddle_pos_old := 10
  ball_x := 30
  ball_y := 10
  ball_x_old := 29
  ball_y_old := 9
  ball_dirx := 1
  ball_diry := 1
  paddle_col := 79
  ai_paddle_col := 2
  bottom_row := 20
  gameLevel := 0
  hitCnt := 0
  play_flag := 1
  exit_flag := 0
  termination_flag := 0
  haltFlag := 0
  winner := 0

/-- C1: when the ball column equals the human paddle column, hit acceptance
is the pure function `hitAccepted` of `(paddle_pos, ball_y, ball_diry)`
alone, it holds iff `|paddle_pos - ball_y + ball_diry| <= PADDLE_WIDTH/2`,
and an accepted hit negates `ball_dirx` and applies the overshoot
correction `ball_x += 2*ball_dirx` (with the negated `ball_dirx`). -/
theorem player_hit_acceptance (PW MH ML : Int) (s : GameData)
    (hx : s.ball_x = s.paddle_col) :
    (hitAccepted PW s.paddle_pos s.ball_y s.ball_diry = true ↔
      |s.paddle_pos - s.ball_y + s.ball_diry| ≤ PW.tdiv 2)
    ∧ (∀ t : GameData, t.paddle_pos = s.paddle_pos → t.ball_y = s.ball_y →
        t.ball_diry = s.ball_diry →
        hitAccepted PW t.paddle_pos t.ball_y t.ball_diry
          = hitAccepted PW s.paddle_pos s.ball_y s.ball_diry)
    ∧ (hitAccepted PW s.paddle_pos s.ball_y s.ball_diry = true →
        (playerPadPhase PW MH ML s).st.ball_dirx = -s.ball_dirx
        ∧ (playerPadPhase PW MH ML s).st.ball_x
            = s.ball_x + 2 * (-s.ball_dirx)) := by
  refine ⟨?_, ?_, ?_⟩
  · simp [hitAccepted, sub_neg_eq_add]
  · intro t h1 h2 h3
    rw [h1, h2, h3]
  · intro hacc
    simp only [playerPadPhase, hx, if_pos, hacc, if_true]
    split_ifs <;> constructor <;> simp

/-- Concrete state with the ball on the player-paddle column, one row above
the paddle center and moving down: the hit tolerance accepts it. -/
def hitState : GameData :=
  { baseState with ball_x := 79, ball_y := 11, paddle_pos := 11, ball_dirx := 1 }

/-- Witness for C1: in `baseState` moved to the paddle column with the ball
one row above the paddle center and moving down, the hit is accepted and the
horizontal velocity flips with the overshoot correction. -/
theorem player_hit_acceptance_witness :
    ((hitAccepted 4 hitState.paddle_pos hitState.ball_y hitState.ball_diry = true ↔
      |hitState.paddle_pos - hitState.ball_y + hitState.ball_diry| ≤ (4 : Int).tdiv 2)
    ∧ ((playerPadPhase 4 3 9 hitState).st.ball_dirx = -hitState.ball_dirx
        ∧ (playerPadPhase 4 3 9 hitState).st.ball_x
            = hitState.ball_x + 2 * (-hitState.ball_dirx))) :=
  ⟨(player_hit_acceptance 4 3 9 hitState (by decide)).1,
   (player_hit_acceptance 4 3 9 hitState (by decide)).2.2 (by decide)⟩

/-- Unconditional description of the wall-reflection branch of
`ball_handler` when `ball_y` lies outside `[FIELD_TOP, bottom_row]`. -/
theorem wallReflect_out (FT : Int) (s : GameData)
    (h : s.ball_y < FT ∨ s.ball_y > s.bottom_row) :
    (wallReflect FT s).ball_y = s.ball_y + 2 * (s.ball_diry * (-1))
    ∧ (wallReflect FT s).ball_diry = s.ball_diry * (-1) := by
  unfold wallReflect
  rw [if_pos h]
  exact ⟨rfl, rfl⟩

/-- C4: a ball step from inside `[FIELD_TOP, bottom_row]` that leaves
`ball_y` one unit outside the interval is corrected to lie one unit inside
the crossed boundary, with `ball_diry` flipped: crossing the bottom gives
`ball_y = bottom_row - 1` and `ball_diry = -1`, crossing the top gives
`ball_y = FIELD_TOP + 1` and `ball_diry = 1`. -/
theorem wall_reflection_exact (FT : Int) (s : GameData)
    (hd : s.ball_diry = 1 ∨ s.ball_diry = -1)
    (hlo : FT ≤ s.ball_y) (hhi : s.ball_y ≤ s.bottom_row) :
    ((ballMove s).ball_y > s.bottom_row →
      (wallReflect FT (ballMove s)).ball_y = s.bottom_row - 1
      ∧ (wallReflect FT (ballMove s)).ball_diry = -1
      ∧ s.ball_diry = 1)
    ∧ ((ballMove s).ball_y < FT →
      (wallReflect FT (ballMove s)).ball_y = FT + 1
      ∧ (wallReflect FT (ballMove s)).ball_diry = 1
      ∧ s.ball_diry = -1) := by
  have hm : (ballMove s).ball_y = s.ball_y + s.ball_diry := rfl
  have hdm : (ballMove s).ball_diry = s.ball_diry := rfl
  constructor
  · intro h
    have hd1 : s.ball_diry = 1 := by omega
    have hout := wallReflect_out FT (ballMove s) (Or.inr h)
    refine ⟨?_, ?_, hd1⟩
    · rw [hout.1, hm, hdm]
      omega
    · rw [hout.2, hdm, hd1]
      norm_num
  · intro h
    have hd1 : s.ball_diry = -1 := by omega
    have hout := wallReflect_out FT (ballMove s) (Or.inl h)
    refine ⟨?_, ?_, hd1⟩
    · rw [hout.1, hm, hdm]
      omega
    · rw [hout.2, hdm, hd1]
      norm_num

/-- Concrete state realising the spec scenario for C4: `bottom_row = 20`,
ball at row 20 moving down. -/
def bottomEdgeState : GameData :=
  { baseState with ball_y := 20, ball_diry := 1 }

/-- Witness for C4: in a field with `bottom_row = 20` and the ball at row 20
moving down, the step reaches row 21 and the correction yields row 19 with
`ball_diry = -1` (the spec scenario). -/
theorem wall_reflection_exact_witness :
    (ballMove bottomEdgeState).ball_y = 21
    ∧ (wallReflect 1 (ballMove bottomEdgeState)).ball_y = 19
    ∧ (wallReflect 1 (ballMove bottomEdgeState)).ball_diry = -1 :=
  ⟨by decide,
   ((wall_reflection_exact 1 bottomEdgeState (Or.inl (by decide)) (by decide)
      (by decide)).1 (by decide)).1,
   ((wall_reflection_exact 1 bottomEdgeState (Or.inl (by decide)) (by decide)
      (by decide)).1 (by decide)).2.1⟩

/-- Concrete state with the halt flag set, used to instantiate C9. -/
def haltedState : GameData :=
  { baseState with haltFlag := 1 }

/-- C9: while `haltFlag` is nonzero, one scheduling step of the ball worker
and of the AI worker is the identity on the state and writes no tags: in
particular `ball_x`, `ball_y` and `ai_paddle_pos` do not change while the
halt flag stays set. -/
theorem halted_workers_frozen (PW FT MH ML : Int) (s : GameData)
    (h : s.haltFlag ≠ 0) :
    ball_handler_step PW FT MH ML s = ⟨s, [], false⟩
    ∧ ai_handler_step PW s = (s, [])
    ∧ (ball_handler_step PW FT MH ML s).st.ball_x = s.ball_x
    ∧ (ball_handler_step PW FT MH ML s).st.ball_y = s.ball_y
    ∧ (ai_handler_step PW s).1.ai_paddle_pos = s.ai_paddle_pos := by
  refine ⟨?_, ?_, ?_, ?_, ?_⟩ <;> simp [ball_handler_step, ai_handler_step, h]

/-- Witness for C9: with the halt flag set in the concrete state, both
worker steps leave the state untouched. -/
theorem halted_workers_frozen_witness :
    ball_handler_step 4 1 3 9 haltedState = ⟨haltedState, [], false⟩
    ∧ ai_handler_step 4 haltedState = (haltedState, []) :=
  ⟨(halted_workers_frozen 4 1 3 9 haltedState (by decide)).1,
   (halted_workers_frozen 4 1 3 9 haltedState (by decide)).2.1⟩

/-- C10: the resize handler never writes `ball_x`; in the branch taken when
`ball_x` exceeds the new width, only `ball_y` is overwritten, with half the
new width. -/
theorem resize_ball_x_frame (PW rows cols : Int) (s : GameData) :
    (resize_handler PW rows cols s).ball_x = s.ball_x
    ∧ (s.ball_x > cols →
        (resize_handler PW rows cols s).ball_y = cols.tdiv 2) := by
  constructor
  · simp only [resize_handler]
    split_ifs <;> rfl
  · intro h
    simp only [resize_handler]
    split_ifs <;> simp_all

/-- Witness for C10: shrinking to 8 columns with the ball at column 30
leaves `ball_x = 30` (outside the field) and resets `ball_y` to 4. -/
theorem resize_ball_x_frame_witness :
    (resize_handler 4 10 8 baseState).ball_x = 30
    ∧ (resize_handler 4 10 8 baseState).ball_y = 4 :=
  ⟨(resize_ball_x_frame 4 10 8 baseState).1,
   (resize_ball_x_frame 4 10 8 baseState).2 (by decide)⟩

/-- C5: a missed hit on either paddle column sets `play_flag = 0`, sets the
one winner for that side (`winner = 1`, the AI, for a human-side miss;
`winner = 0`, the human, for an AI-side miss — the two encodings are
distinct), writes exactly one `QUIT_TAG`, and returns from the ball physics
worker; the last conjunct shows the whole worker step terminating with
exactly one `QUIT_TAG` on a human-side miss. -/
theorem missed_hit_outcome (PW FT MH ML : Int) (s : GameData) :
    (s.ball_x = s.paddle_col →
      hitAccepted PW s.paddle_pos s.ball_y s.ball_diry = false →
      playerPadPhase PW MH ML s
        = ⟨{ s with play_flag := 0, winner := winnerAi }, [Tag.QUIT], true⟩)
    ∧ (s.ball_x = s.ai_paddle_col →
      hitAccepted PW s.ai_paddle_pos s.ball_y s.ball_diry = false →
      aiPadPhase PW s
        = ⟨{ s with play_flag := 0, winner := winnerHuman }, [Tag.QUIT], true⟩)
    ∧ winnerAi ≠ winnerHuman
    ∧ (s.haltFlag = 0 →
      (wallReflect FT (ballMove s)).ball_x
          = (wallReflect FT (ballMove s)).paddle_col →
      hitAccepted PW (wallReflect FT (ballMove s)).paddle_pos
          (wallReflect FT (ballMove s)).ball_y
          (wallReflect FT (ballMove s)).ball_diry = false →
      ball_handler_step PW FT MH ML s
        = ⟨{ wallReflect FT (ballMove s) with play_flag := 0, winner := winnerAi }, [Tag.QUIT], true⟩) := by
  refine ⟨?_, ?_, by decide, ?_⟩
  · intro hx hacc
    rw [playerPadPhase, if_pos hx, hacc]
    rfl
  · intro hx hacc
    rw [aiPadPhase, if_pos hx, hacc]
    rfl
  · intro hh hx hacc
    rw [ball_handler_step, if_neg (by omega)]
    have hp : playerPadPhase PW MH ML (wallReflect FT (ballMove s))
        = ⟨{ wallReflect FT (ballMove s) with play_flag := 0, winner := winnerAi }, [Tag.QUIT], true⟩ := by
      rw [playerPadPhase, if_pos hx, hacc]
      rfl
    simp [hp]

/-- Concrete state with the ball on the player-paddle column far from the
paddle: the hit tolerance rejects it. -/
def missState : GameData :=
  { baseState with ball_x := 78, ball_y := 3, paddle_pos := 15 }

/-- Witness for C5: from a concrete state whose next tick puts the ball on
the paddle column at row 4, far from the paddle at row 15, the worker step
terminates with `winner = 1` (the AI) and exactly one `QUIT_TAG`. -/
theorem missed_hit_outcome_witness :
    ball_handler_step 4 1 3 9 missState
      = ⟨{ wallReflect 1 (ballMove missState) with play_flag := 0, winner := winnerAi }, [Tag.QUIT], true⟩ :=
  (missed_hit_outcome 4 1 3 9 missState).2.2.2 (by decide) (by decide)
    (by decide)

/-- C6: an accepted player hit that triggers a level-up
(`hitCnt >= MAX_HITCNT`) after which `gameLevel` exceeds `MAX_LEVEL` sets
`play_flag = 0` and `winner = 0` (the human), writes exactly one `QUIT_TAG`,
and returns from the ball physics worker. -/
theorem level_cap_win (PW MH ML : Int) (s : GameData)
    (hx : s.ball_x = s.paddle_col)
    (hacc : hitAccepted PW s.paddle_pos s.ball_y s.ball_diry = true)
    (hcnt : s.hitCnt ≥ MH)
    (hlvl : s.gameLevel + 1 > ML) :
    (playerPadPhase PW MH ML s).st.play_flag = 0
    ∧ (playerPadPhase PW MH ML s).st.winner = winnerHuman
    ∧ (playerPadPhase PW MH ML s).st.gameLevel = s.gameLevel + 1
    ∧ (playerPadPhase PW MH ML s).tags = [Tag.QUIT]
    ∧ (playerPadPhase PW MH ML s).done = true := by
  rw [playerPadPhase, if_pos hx, hacc]
  simp only [if_true]
  rw [if_pos (show s.hitCnt ≥ MH from hcnt)]
  rw [if_pos (show s.gameLevel + 1 > ML from hlvl)]
  exact ⟨rfl, rfl, rfl, rfl, rfl⟩

/-- Concrete state for C6: an accepted hit at `hitCnt = 3 = MAX_HITCNT`
with `gameLevel = 9 = MAX_LEVEL`, so the level-up pushes the level past the
cap. -/
def capState : GameData :=
  { hitState with hitCnt := 3, gameLevel := 9 }

/-- Witness for C6: with `MAX_HITCNT = 3` and `MAX_LEVEL = 9`, the accepted
hit at `hitCnt = 3`, `gameLevel = 9` ends the round with the human as
winner and one `QUIT_TAG`. -/
theorem level_cap_win_witness :
    (playerPadPhase 4 3 9 capState).st.play_flag = 0
    ∧ (playerPadPhase 4 3 9 capState).st.winner = winnerHuman
    ∧ (playerPadPhase 4 3 9 capState).st.gameLevel = 10
    ∧ (playerPadPhase 4 3 9 capState).tags = [Tag.QUIT]
    ∧ (playerPadPhase 4 3 9 capState).done = true :=
  level_cap_win 4 3 9 capState (by decide) (by decide) (by decide) (by decide)

/-- Concrete state one accepted hit away from `hitCnt = MAX_HITCNT` (with
`MAX_HITCNT = 3`): `hitCnt = 2`, and the next tick lands the ball on the
player-paddle column within the hit tolerance. -/
def nearLevelState : GameData :=
  { baseState with ball_x := 78, paddle_pos := 11, hitCnt := 2 }

/-- Counterexample to C2: with `MAX_HITCNT = 3` and `hitCnt = 3 - 1 = 2`,
the next tick is an accepted player-paddle hit, yet `gameLevel` stays 0 and
`hitCnt` becomes 3 (not 0): the level-up fires only on the hit whose
pre-hit counter already equals `MAX_HITCNT`, one hit later than claimed. -/
theorem levelup_offbyone_counterexample :
    nearLevelState.hitCnt = 3 - 1
    ∧ nearLevelState.gameLevel = 0
    ∧ (wallReflect 1 (ballMove nearLevelState)).ball_x
        = (wallReflect 1 (ballMove nearLevelState)).paddle_col
    ∧ hitAccepted 4 (wallReflect 1 (ballMove nearLevelState)).paddle_pos
        (wallReflect 1 (ballMove nearLevelState)).ball_y
        (wallReflect 1 (ballMove nearLevelState)).ball_diry = true
    ∧ (ball_handler_step 4 1 3 9 nearLevelState).st.gameLevel = 0
    ∧ (ball_handler_step 4 1 3 9 nearLevelState).st.hitCnt = 3 := by
  decide

/-- C2 (amended): on an accepted player-paddle hit, the level-up triggers
exactly when the pre-hit `hitCnt` is at least `MAX_HITCNT` — then
`gameLevel` increases by exactly 1 and `hitCnt` resets to 0 — while a hit
with pre-hit `hitCnt < MAX_HITCNT` (in particular `MAX_HITCNT - 1`) leaves
`gameLevel` unchanged and merely increments `hitCnt`. -/
theorem levelup_transition (PW MH ML : Int) (s : GameData)
    (hx : s.ball_x = s.paddle_col)
    (hacc : hitAccepted PW s.paddle_pos s.ball_y s.ball_diry = true) :
    (s.hitCnt ≥ MH →
      (playerPadPhase PW MH ML s).st.gameLevel = s.gameLevel + 1
      ∧ (playerPadPhase PW MH ML s).st.hitCnt = 0)
    ∧ (s.hitCnt < MH →
      (playerPadPhase PW MH ML s).st.gameLevel = s.gameLevel
      ∧ (playerPadPhase PW MH ML s).st.hitCnt = s.hitCnt + 1) := by
  rw [playerPadPhase, if_pos hx, hacc]
  simp only [if_true]
  constructor
  · intro hcnt
    rw [if_pos (show s.hitCnt ≥ MH from hcnt)]
    split_ifs <;> exact ⟨rfl, rfl⟩
  · intro hcnt
    rw [if_neg (show ¬s.hitCnt ≥ MH by omega)]
    split_ifs <;> exact ⟨rfl, rfl⟩

/-- Witness for the amended C2: with `MAX_HITCNT = 3`, an accepted hit at
`hitCnt = 3` levels up to `gameLevel = 1` and resets `hitCnt` to 0, and an
accepted hit at `hitCnt = 2` leaves `gameLevel = 0` and sets `hitCnt = 3`. -/
theorem levelup_transition_witness :
    ((playerPadPhase 4 3 9 { hitState with hitCnt := 3 }).st.gameLevel = 1
      ∧ (playerPadPhase 4 3 9 { hitState with hitCnt := 3 }).st.hitCnt = 0)
    ∧ ((playerPadPhase 4 3 9 { hitState with hitCnt := 2 }).st.gameLevel = 0
      ∧ (playerPadPhase 4 3 9 { hitState with hitCnt := 2 }).st.hitCnt = 3) :=
  ⟨(levelup_transition 4 3 9 { hitState with hitCnt := 3 } (by decide)
      (by decide)).1 (by decide),
   (levelup_transition 4 3 9 { hitState with hitCnt := 2 } (by decide)
      (by decide)).2 (by decide)⟩

/-- Counterexample to C3: from an in-bounds state (`paddle_pos = 10`,
`bottom_row = 20`, `PADDLE_WIDTH = 4`), a pointer event at row 1000 makes
the input worker write `paddle_pos = 1000`, far outside
`[PADDLE_WIDTH/2, bottom_row - PADDLE_WIDTH/2]`: the pointer branch of
`keyboard_handler` (line 154) performs no bounds check. -/
theorem mouse_unbounded_counterexample :
    paddleInBounds 4 baseState.bottom_row baseState.paddle_pos
    ∧ (keyboard_handler_step 4 baseState (InputEvent.mouse 1000)).1.paddle_pos
        = 1000
    ∧ (keyboard_handler_step 4 baseState (InputEvent.mouse 1000)).1.bottom_row
        = 20
    ∧ ¬paddleInBounds 4 20 1000 := by
  decide

/-- Position of the AI paddle after one AI tick: it is either unchanged or
lies within the paddle bounds, because `ai_handler` only applies a step
whose result passes the bounds guard of lines 315-316. -/
theorem ai_handler_step_pos (PW : Int) (s : GameData) :
    (ai_handler_step PW s).1.ai_paddle_pos = s.ai_paddle_pos
    ∨ (PW.tdiv 2 ≤ (ai_handler_step PW s).1.ai_paddle_pos
       ∧ (ai_handler_step PW s).1.ai_paddle_pos ≤ s.bottom_row - PW.tdiv 2) := by
  simp only [ai_handler_step]
  split_ifs <;>
    first
      | exact Or.inl rfl
      | (rename_i hb
         exact Or.inr ⟨hb.1, hb.2⟩)

/-- C3 (amended): the arrow-key branches of the input worker and the AI
worker's step preserve the paddle-position invariant
`[PADDLE_WIDTH/2, bottom_row - PADDLE_WIDTH/2]`; the pointer branch does
not (see the counterexample), since it writes the raw pointer row. -/
theorem arrow_ai_bounds_preserved (PW : Int) (s : GameData)
    (hp : paddleInBounds PW s.bottom_row s.paddle_pos)
    (ha : paddleInBounds PW s.bottom_row s.ai_paddle_pos) :
    paddleInBounds PW s.bottom_row
      (keyboard_handler_step PW s InputEvent.keyUp).1.paddle_pos
    ∧ paddleInBounds PW s.bottom_row
      (keyboard_handler_step PW s InputEvent.keyDown).1.paddle_pos
    ∧ paddleInBounds PW s.bottom_row
      (ai_handler_step PW s).1.ai_paddle_pos := by
  obtain ⟨hp1, hp2⟩ := hp
  obtain ⟨ha1, ha2⟩ := ha
  refine ⟨?_, ?_, ?_⟩
  · simp only [keyboard_handler_step]
    split_ifs with h
    · refine ⟨?_, ?_⟩
      · show PW.tdiv 2 ≤ s.paddle_pos - 1
        omega
      · show s.paddle_pos - 1 ≤ s.bottom_row - PW.tdiv 2
        omega
    · exact ⟨hp1, hp2⟩
  · simp only [keyboard_handler_step]
    split_ifs with h
    · refine ⟨?_, ?_⟩
      · show PW.tdiv 2 ≤ s.paddle_pos + 1
        omega
      · show s.paddle_pos + 1 ≤ s.bottom_row - PW.tdiv 2
        omega
    · exact ⟨hp1, hp2⟩
  · rcases ai_handler_step_pos PW s with h | h
    · rw [h]
      exact ⟨ha1, ha2⟩
    · exact ⟨h.1, h.2⟩

/-- Witness for the amended C3: in the concrete in-bounds state, one key-up,
one key-down and one AI tick each leave the paddles within bounds. -/
theorem arrow_ai_bounds_preserved_witness :
    paddleInBounds 4 baseState.bottom_row
      (keyboard_handler_step 4 baseState InputEvent.keyUp).1.paddle_pos
    ∧ paddleInBounds 4 baseState.bottom_row
      (keyboard_handler_step 4 baseState InputEvent.keyDown).1.paddle_pos
    ∧ paddleInBounds 4 baseState.bottom_row
      (ai_handler_step 4 baseState).1.ai_paddle_pos :=
  arrow_ai_bounds_preserved 4 baseState (by decide) (by decide)

/-- Final human-paddle position after a resize: pinned to
`MAX(bottom_row - PADDLE_WIDTH/2, PADDLE_WIDTH/2)` exactly when it exceeded
`bottom_row - PADDLE_WIDTH/2` for the new `bottom_row = rows - 1`. -/
theorem resize_handler_paddle (PW rows cols : Int) (s : GameData) :
    (resize_handler PW rows cols s).paddle_pos
      = if s.paddle_pos > rows - 1 - PW.tdiv 2
        then max (rows - 1 - PW.tdiv 2) (PW.tdiv 2) else s.paddle_pos := by
  simp only [resize_handler]
  split_ifs <;> rfl

/-- Final AI-paddle position after a resize, same pin policy as the human
paddle. -/
theorem resize_handler_ai_paddle (PW rows cols : Int) (s : GameData) :
    (resize_handler PW rows cols s).ai_paddle_pos
      = if s.ai_paddle_pos > rows - 1 - PW.tdiv 2
        then max (rows - 1 - PW.tdiv 2) (PW.tdiv 2) else s.ai_paddle_pos := by
  simp only [resize_handler]
  split_ifs <;> rfl

/-- Final ball row after a resize: overwritten with `cols / 2` when `ball_x`
exceeds the new width, else clamped to the new `bottom_row` when it exceeded
it. -/
theorem resize_handler_ball_y (PW rows cols : Int) (s : GameData) :
    (resize_handler PW rows cols s).ball_y
      = if s.ball_x > cols then cols.tdiv 2
        else if s.ball_y > rows - 1 then rows - 1 else s.ball_y := by
  simp only [resize_handler]
  split_ifs <;> rfl

/-- C7 (amended): on a resize, each paddle whose position exceeds
`bottom_row - PADDLE_WIDTH/2` is pinned to
`max(bottom_row - PADDLE_WIDTH/2, PADDLE_WIDTH/2)`; `ball_y` is clamped to
`bottom_row` when it exceeds it (and `ball_x` stays within the width); when
`ball_x` exceeds the new width, `ball_y` is reset to half the new width; and
a shrink of `bottom_row` below `paddle_pos + PADDLE_WIDTH/2` clamps
`paddle_pos` to `bottom_row - PADDLE_WIDTH/2` provided
`bottom_row - PADDLE_WIDTH/2` is at least `PADDLE_WIDTH/2` (otherwise the
pin lands on `PADDLE_WIDTH/2`, see the counterexample). -/
theorem resize_clamp (PW rows cols : Int) (s : GameData) :
    (resize_handler PW rows cols s).bottom_row = rows - 1
    ∧ (s.paddle_pos > rows - 1 - PW.tdiv 2 →
        (resize_handler PW rows cols s).paddle_pos
          = max (rows - 1 - PW.tdiv 2) (PW.tdiv 2))
    ∧ (s.ai_paddle_pos > rows - 1 - PW.tdiv 2 →
        (resize_handler PW rows cols s).ai_paddle_pos
          = max (rows - 1 - PW.tdiv 2) (PW.tdiv 2))
    ∧ (s.ball_x ≤ cols → s.ball_y > rows - 1 →
        (resize_handler PW rows cols s).ball_y = rows - 1)
    ∧ (s.ball_x > cols →
        (resize_handler PW rows cols s).ball_y = cols.tdiv 2)
    ∧ (PW.tdiv 2 ≤ rows - 1 - PW.tdiv 2 →
        s.paddle_pos > rows - 1 - PW.tdiv 2 →
        (resize_handler PW rows cols s).paddle_pos
          = rows - 1 - PW.tdiv 2) := by
  have hbr : (resize_handler PW rows cols s).bottom_row = rows - 1 := by
    simp only [resize_handler]
    split_ifs <;> rfl
  refine ⟨hbr, ?_, ?_, ?_, ?_, ?_⟩
  · intro h
    rw [resize_handler_paddle, if_pos h]
  · intro h
    rw [resize_handler_ai_paddle, if_pos h]
  · intro h1 h2
    rw [resize_handler_ball_y, if_neg (by omega), if_pos h2]
  · intro h1
    rw [resize_handler_ball_y, if_pos h1]
  · intro hmax h
    rw [resize_handler_paddle, if_pos h, max_eq_left hmax]

/-- Witness for the amended C7: shrinking the terminal to 11 rows while the
paddle sits at row 15 pins the paddle to `10 - 2 = 8`, and the ball at row
10 with `ball_x` inside the 50-column width keeps its row clamped to 10. -/
theorem resize_clamp_witness :
    (resize_handler 4 9 50 { baseState with paddle_pos := 15 }).paddle_pos = 6
    ∧ (resize_handler 4 9 50 { baseState with paddle_pos := 15 }).ball_y = 8 :=
  ⟨by
    rw [(resize_clamp 4 9 50 { baseState with paddle_pos := 15 }).2.2.2.2.2
        (by decide) (by decide)]
    decide,
   by
    rw [(resize_clamp 4 9 50 { baseState with paddle_pos := 15 }).2.2.2.1
        (by decide) (by decide)]
    decide⟩

/-- Counterexample to C7's final clause: with `PADDLE_WIDTH = 4` and a
resize to 4 rows (`bottom_row = 3`, below `paddle_pos + PADDLE_WIDTH/2`),
the paddle at row 5 is pinned to `max(3 - 2, 2) = 2`, not to
`bottom_row - PADDLE_WIDTH/2 = 1` as the claim states. -/
theorem resize_pin_counterexample :
    (4 : Int) - 1 < ({ baseState with paddle_pos := 5 } : GameData).paddle_pos
        + (4 : Int).tdiv 2
    ∧ (resize_handler 4 4 50 { baseState with paddle_pos := 5 }).bottom_row = 3
    ∧ (resize_handler 4 4 50 { baseState with paddle_pos := 5 }).paddle_pos = 2
    ∧ ((2 : Int) = 3 - (4 : Int).tdiv 2 → False) := by
  decide

/-- C8: one unhalted AI tick saves the pre-move position into
`ai_paddle_pos_old`, computes the candidate `ai_paddle_pos + sign(diff)`
(`diff = ball_y - ai_paddle_pos`, step 0 when aligned), applies it exactly
when it lies within `[PADDLE_WIDTH/2, bottom_row - PADDLE_WIDTH/2]`, and
writes one `AI_TAG`. -/
theorem ai_pursuit_controller (PW : Int) (s : GameData) (h : s.haltFlag = 0) :
    (ai_handler_step PW s).1.ai_paddle_pos_old = s.ai_paddle_pos
    ∧ ((PW.tdiv 2 ≤ s.ai_paddle_pos + (s.ball_y - s.ai_paddle_pos).sign
        ∧ s.ai_paddle_pos + (s.ball_y - s.ai_paddle_pos).sign
            ≤ s.bottom_row - PW.tdiv 2) →
        (ai_handler_step PW s).1.ai_paddle_pos
          = s.ai_paddle_pos + (s.ball_y - s.ai_paddle_pos).sign)
    ∧ (¬(PW.tdiv 2 ≤ s.ai_paddle_pos + (s.ball_y - s.ai_paddle_pos).sign
        ∧ s.ai_paddle_pos + (s.ball_y - s.ai_paddle_pos).sign
            ≤ s.bottom_row - PW.tdiv 2) →
        (ai_handler_step PW s).1.ai_paddle_pos = s.ai_paddle_pos)
    ∧ (s.ball_y = s.ai_paddle_pos →
        s.ai_paddle_pos + (s.ball_y - s.ai_paddle_pos).sign = s.ai_paddle_pos)
    ∧ (ai_handler_step PW s).2 = [Tag.AI] := by
  have hc := tdiv_abs_sign (s.ball_y - s.ai_paddle_pos)
  simp only [ai_handler_step, if_neg (show ¬s.haltFlag ≠ 0 by omega), hc]
  refine ⟨?_, ?_, ?_, ?_, trivial⟩
  · split_ifs <;> rfl
  · intro hin
    rw [if_pos (show _ ∧ _ from ⟨hin.1, hin.2⟩)]
  · intro hout
    rw [if_neg (show ¬(_ ∧ _) from fun hb => hout ⟨hb.1, hb.2⟩)]
  · intro he
    rw [he, sub_self, Int.sign_zero, add_zero]

/-- Witness for C8: in the concrete state with the ball at row 10 below no
one (paddle aligned), plus a shifted variant with the ball two rows below
the AI paddle, the tick respectively stays and steps down by one. -/
theorem ai_pursuit_controller_witness :
    (ai_handler_step 4 baseState).1.ai_paddle_pos_old = 10
    ∧ (ai_handler_step 4 { baseState with ball_y := 12 }).1.ai_paddle_pos
        = 11 :=
  ⟨(ai_pursuit_controller 4 baseState (by decide)).1,
   by
    rw [(ai_pursuit_controller 4 { baseState with ball_y := 12 }
        (by decide)).2.1 (by decide)]
    decide⟩
